import Mathlib

/-!
Verification of the pybara-ic-protocol wallet-adapter / payment-orchestration
core against its specification.

The JavaScript source is shallowly embedded: each adapter method becomes a
Lean function over an explicit state record, with the outcomes of external
backend calls (wallet extensions, ledger canisters, the remote payment
service) passed in as environment parameters of type `Except String _`
(`.error` models a rejected promise / thrown exception).  JS `Number(x)`
applied to a possibly-undefined big integer is modelled by `JsNum`
(`Number(undefined)` is NaN).  Async functions that always return a promise
are modelled with `JsValue.promise`.
-/

namespace Pybara

/-- Result of the JS `Number(x)` conversion: an actual number or NaN. -/
inductive JsNum where
  | num (n : Nat)
  | nan
deriving DecidableEq, Repr

/-- Value produced by a possibly-async JS boolean query: a plain boolean, or a
promise (always truthy as a JS value) that resolves to a boolean. -/
inductive JsValue where
  | bool (b : Bool)
  | promise (b : Bool)
deriving DecidableEq, Repr

/-- JS `Number(blockIndex)` where `blockIndex` is a BigInt/number or
`undefined`: `Number(undefined)` evaluates to NaN, not an exception. -/
def jsNumber : Option Nat → JsNum
  | some n => .num n
  | none => .nan

/-- Outcome of an awaited adapter call: the promise rejected with an error
message, or it resolved with a value. -/
inductive TransferOutcome where
  | threw (msg : String)
  | resolved (value : JsNum)
deriving DecidableEq, Repr

/-- JS `a.includes(b)` on strings. -/
def strIncludes (s pat : String) : Bool :=
  (s.splitOn pat).length > 1

/-- ICRC-1 transfer error variants, following the TransferError variant of the
ledger IDL in ledger-actor.js (only the constructors the adapters branch on
are distinguished; the rest are carried by name). -/
inductive Icrc1Err where
  | InsufficientFunds
  | BadFee (expected_fee : Nat)
  | TemporarilyUnavailable
  | other (name : String)
deriving DecidableEq, Repr

/-- Variant name of an ICRC-1 error, as obtained by `Object.keys(result.Err)[0]`. -/
def Icrc1Err.name : Icrc1Err → String
  | .InsufficientFunds => "InsufficientFunds"
  | .BadFee _ => "BadFee"
  | .TemporarilyUnavailable => "TemporarilyUnavailable"
  | .other n => n

/-- Decoded `icrc1_transfer` result as the JS adapters see it: the code first
tests `result.Err` for truthiness and otherwise reads `result.Ok`; a
malformed response may carry neither field (both `none`). -/
structure Icrc1TransferResult where
  Err : Option Icrc1Err := none
  Ok : Option Nat := none
deriving DecidableEq, Repr

/-- Transfer request value object handed to WalletManager.transfer /
adapter.transfer (destination, amount in smallest units, resolved ledger
canister id, token symbol). -/
structure TransferRequest where
  «to» : String
  amount : Nat
  ledgerCanisterId : String
  token : String
deriving DecidableEq, Repr

/-! ## Plug adapter (PlugWalletAdapter.js) -/

/-- Mutable state of a PlugWalletAdapter instance.  `available` is the
snapshot of the `window.ic.plug` probe used by `isAvailable()`, carried in
the state because the browser environment is fixed for a run. -/
structure PlugState where
  available : Bool
  principal : Option String := none
  connected : Bool := false
deriving DecidableEq, Repr

/-- Backend outcomes a single `PlugWalletAdapter.connect()` call can observe:
the `window.ic.plug.requestConnect` result and the
`window.ic.plug.agent.getPrincipal()` result (as text). -/
structure PlugConnectEnv where
  requestConnect : Except String Bool
  getPrincipal : Except String String

/-- Error classification in the catch block of `PlugWalletAdapter.connect`. -/
def plugClassifyConnectError (msg : String) : String :=
  if msg = "" || strIncludes msg "rejected" || strIncludes msg "cancelled" ||
      strIncludes msg "denied" || msg = "undefined" then
    "[Plug Wallet] Connection rejected by user"
  else if strIncludes msg "timeout" then
    "[Plug Wallet] Connection timeout. Please try again."
  else
    "[Plug Wallet] Connection failed: " ++ msg

/-- `PlugWalletAdapter.connect()`: availability guard, whitelist handshake via
`requestConnect`, then principal retrieval; on success sets `principal` and
`connected`, on every failure path the state is left untouched.  The inner
`throw createError('Connection rejected by user')` for a falsy handshake
result is re-caught by the catch block, recognised as a cancellation (the
message contains "rejected") and re-thrown with the same message. -/
def plugConnect (s : PlugState) (env : PlugConnectEnv) :
    PlugState × Except String String :=
  if !s.available then
    (s, .error "[Plug Wallet] Plug Wallet not installed. Get it at: https://plugwallet.ooo")
  else
    match env.requestConnect with
    | .error e => (s, .error (plugClassifyConnectError e))
    | .ok false => (s, .error "[Plug Wallet] Connection rejected by user")
    | .ok true =>
      match env.getPrincipal with
      | .error e => (s, .error (plugClassifyConnectError e))
      | .ok p => ({ s with principal := some p, connected := true }, .ok p)

/-- `PlugWalletAdapter.disconnect()`: the backend `window.ic.plug.disconnect()`
call (attempted only when available and connected) is wrapped in a try/catch
whose catch is empty, so its outcome is irrelevant; local identity and
connected state are cleared unconditionally and the method never throws. -/
def plugDisconnect (s : PlugState) (_backend : Except String Unit) : PlugState :=
  { s with principal := none, connected := false }

/-- Error classification in the catch block of `PlugWalletAdapter.transfer`. -/
def plugClassifyTransferError (token msg : String) : String :=
  if strIncludes msg "InsufficientFunds" || strIncludes msg "Insufficient" then
    "[Plug Wallet] Insufficient " ++ token ++ " balance"
  else if strIncludes msg "rejected" || strIncludes msg "denied" then
    "[Plug Wallet] Transfer rejected by user"
  else if strIncludes msg "timeout" then
    "[Plug Wallet] Transfer timeout. Please try again."
  else
    "[Plug Wallet] Transfer failed: " ++ msg

/-- Message thrown inside the try block of `PlugWalletAdapter.transfer` for an
explicit `result.Err` variant (it is then re-classified by the catch block). -/
def plugLedgerErrThrow (token : String) : Icrc1Err → String
  | .InsufficientFunds => "[Plug Wallet] Insufficient " ++ token ++ " balance"
  | .BadFee f => "[Plug Wallet] Incorrect fee. Expected: " ++ toString f
  | .TemporarilyUnavailable =>
      "[Plug Wallet] Ledger temporarily unavailable. Please try again."
  | .other n => "[Plug Wallet] Transfer failed: " ++ n

/-- Backend outcomes a `PlugWalletAdapter.transfer` call can observe: whether
`window.ic.plug.agent` is still present, and the awaited
`ledger.icrc1_transfer` result. -/
structure PlugTransferEnv where
  agentPresent : Bool
  ledgerCall : Except String Icrc1TransferResult

/-- `PlugWalletAdapter.transfer(params)`: fails fast when not connected,
builds a ledger actor on Plug's agent and issues `icrc1_transfer` directly
(requestTransfer is ICP-only).  An explicit `result.Err` or a rejected call
is classified and thrown; otherwise the method resolves with
`Number(result.Ok)` - the adapter state is never modified. -/
def plugTransfer (s : PlugState) (token : String) (env : PlugTransferEnv) :
    TransferOutcome :=
  if !s.connected then
    .threw "[Plug Wallet] Not connected. Call connect() first."
  else if !env.agentPresent then
    .threw (plugClassifyTransferError token
      "[Plug Wallet] Plug agent not available. Please reconnect.")
  else
    match env.ledgerCall with
    | .error e => .threw (plugClassifyTransferError token e)
    | .ok r =>
      match r.Err with
      | some err => .threw (plugClassifyTransferError token (plugLedgerErrThrow token err))
      | none => .resolved (jsNumber r.Ok)

/-- `PlugWalletAdapter.getBalance`: throws when not connected, returns `0n`
when the agent is gone or the ICRC-1 balance query fails (non-fatal). -/
def plugGetBalance (s : PlugState) (agentPresent : Bool)
    (query : Except String Nat) : Except String Nat :=
  if !s.connected then
    .error "[Plug Wallet] Not connected. Call connect() first."
  else if !agentPresent then
    .ok 0
  else
    match query with
    | .ok b => .ok b
    | .error _ => .ok 0

/-- `PlugWalletAdapter.isConnected()`: false when the extension probe fails,
otherwise the locally cached flag - Plug's own asynchronous `isConnected`
query is deliberately never consulted (it probes localhost and fails on
mainnet). -/
def plugIsConnected (s : PlugState) : JsValue :=
  if !s.available then .bool false else .bool s.connected

/-! ## Oisy adapter (OisyWalletAdapter.js) -/

/-- Mutable state of an OisyWalletAdapter instance.  `windowPresent` is the
snapshot of the `typeof window !== 'undefined'` probe; `signerPresent` models
the `this.signer` field (a signer is held only transiently during connect and
transfer). -/
structure OisyState where
  windowPresent : Bool
  signerPresent : Bool := false
  principal : Option String := none
  connected : Bool := false
deriving DecidableEq, Repr

/-- Backend outcomes an `OisyWalletAdapter.connect()` call can observe: the
popup handshake, the `signer.accounts()` answer (list of account owners), and
the trailing `signer.disconnect()`. -/
structure OisyConnectEnv where
  connect : Except String Unit
  accounts : Except String (List String)
  popupDisconnect : Except String Unit

/-- Error classification in the catch block of `OisyWalletAdapter.connect`. -/
def oisyClassifyConnectError (msg : String) : String :=
  if strIncludes msg "timeout" then
    "[Oisy Wallet] Connection timeout. Please try again."
  else if strIncludes msg "canceled" || strIncludes msg "cancelled" then
    "[Oisy Wallet] Connection cancelled by user."
  else
    "[Oisy Wallet] Connection failed: " ++ msg

/-- `OisyWalletAdapter.connect()`: opens the popup, reads the accounts, takes
the first account's owner as principal, marks connected, then closes the
popup (Oisy reconnects per transfer).  An empty account list throws `No
accounts found in Oisy wallet`, which the catch block wraps as a generic
connection failure.  A failure of the trailing popup disconnect is caught
after `principal`/`connected` were already set. -/
def oisyConnect (s : OisyState) (env : OisyConnectEnv) :
    OisyState × Except String String :=
  match env.connect with
  | .error e => (s, .error (oisyClassifyConnectError e))
  | .ok _ =>
    let s1 := { s with signerPresent := true }
    match env.accounts with
    | .error e => (s1, .error (oisyClassifyConnectError e))
    | .ok [] => (s1, .error (oisyClassifyConnectError "No accounts found in Oisy wallet"))
    | .ok (a :: _) =>
      let s2 := { s1 with principal := some a, connected := true }
      match env.popupDisconnect with
      | .error e => (s2, .error (oisyClassifyConnectError e))
      | .ok _ => ({ s2 with signerPresent := false }, .ok a)

/-- `OisyWalletAdapter.disconnect()`: the signer's own disconnect (attempted
only if a signer is held) is swallowed; signer, identity and connected state
are cleared unconditionally and the method never throws. -/
def oisyDisconnect (s : OisyState) (_popup : Except String Unit) : OisyState :=
  { s with signerPresent := false, principal := none, connected := false }

/-- Error classification in the catch block of `OisyWalletAdapter.transfer`. -/
def oisyClassifyTransferError (token msg : String) : String :=
  if strIncludes msg "canceled" || strIncludes msg "cancelled" ||
      strIncludes msg "rejected" then
    "[Oisy Wallet] Transfer cancelled by user"
  else if strIncludes msg "insufficient" then
    "[Oisy Wallet] Insufficient " ++ token ++ " balance"
  else
    "[Oisy Wallet] Transfer failed: " ++ msg

/-- Backend outcomes an `OisyWalletAdapter.transfer` call can observe: the
per-transfer reconnect, the `signer.transfer` answer (the block index as
BigInt/number, or `undefined` when absent), and the trailing popup
disconnect. -/
structure OisyTransferEnv where
  reconnect : Except String Unit
  transferCall : Except String (Option Nat)
  popupDisconnect : Except String Unit

/-- `OisyWalletAdapter.transfer(params)`: fails fast when not connected,
reconnects to the popup, issues the transfer and resolves with
`Number(blockIndex)` after closing the popup.  On any rejection the held
signer is cleaned up and the error is classified.  No check is performed on
the returned block index itself. -/
def oisyTransfer (s : OisyState) (token : String) (env : OisyTransferEnv) :
    OisyState × TransferOutcome :=
  if !s.connected then
    (s, .threw "[Oisy Wallet] Not connected. Call connect() first.")
  else
    match env.reconnect with
    | .error e => (s, .threw (oisyClassifyTransferError token e))
    | .ok _ =>
      match env.transferCall with
      | .error e =>
        ({ s with signerPresent := false }, .threw (oisyClassifyTransferError token e))
      | .ok bi =>
        match env.popupDisconnect with
        | .error e =>
          ({ s with signerPresent := false }, .threw (oisyClassifyTransferError token e))
        | .ok _ => ({ s with signerPresent := false }, .resolved (jsNumber bi))

/-- `OisyWalletAdapter.getBalance`: guards on `this.signer` (not on the
connected flag) and otherwise returns the `0n` stub. -/
def oisyGetBalance (s : OisyState) : Except String Nat :=
  if !s.signerPresent then
    .error "[Oisy Wallet] Not connected. Call connect() first."
  else
    .ok 0

/-- Oisy inherits `WalletAdapter.isConnected` from the base class:
`this.connected && this.principal !== null`, synchronously. -/
def oisyIsConnected (s : OisyState) : JsValue :=
  .bool (s.connected && s.principal.isSome)

/-! ## NFID adapter (NFIDWalletAdapter.js) -/

/-- Mutable state of an NFIDWalletAdapter instance.  `authClient`,
`agentPresent` and `identityPresent` model the presence of the respective
objects; `sessionAuthenticated` models what `authClient.isAuthenticated()`
currently answers for the held client (the delegation session). -/
structure NFIDState where
  authClient : Bool := false
  sessionAuthenticated : Bool := false
  agentPresent : Bool := false
  identityPresent : Bool := false
  principal : Option String := none
  connected : Bool := false
deriving DecidableEq, Repr

/-- Backend outcomes an `NFIDWalletAdapter.connect()` call can observe:
`AuthClient.create()`, the authentication status of a freshly created client,
the principal text of the resulting identity, the `authClient.login` popup
outcome, and `HttpAgent.create`. -/
structure NFIDConnectEnv where
  authCreate : Except String Unit
  alreadyAuthenticated : Bool
  principalText : String
  login : Except String Unit
  agentCreate : Except String Unit

/-- Error classification in the catch block of `NFIDWalletAdapter.connect`
(the login promise rejections bypass it and carry their own messages). -/
def nfidClassifyConnectError (msg : String) : String :=
  if strIncludes msg "rejected" then
    "[NFID Wallet] Login rejected by user"
  else if strIncludes msg "timeout" then
    "[NFID Wallet] Login timeout. Please try again."
  else
    "[NFID Wallet] Connection failed: " ++ msg

/-- `NFIDWalletAdapter.connect()`: creates the auth client if absent, then
either reuses an already-authenticated session or opens the NFID login.  On
either success path identity, principal and `connected` are set before
`HttpAgent.create` runs, so an agent-creation failure throws with the
connected state already set.  A login failure rejects with `Login failed:`
and leaves identity state untouched. -/
def nfidConnect (s : NFIDState) (env : NFIDConnectEnv) :
    NFIDState × Except String String :=
  let created : Except String NFIDState :=
    if s.authClient then .ok s
    else
      match env.authCreate with
      | .error e => .error (nfidClassifyConnectError e)
      | .ok _ => .ok { s with authClient := true,
                              sessionAuthenticated := env.alreadyAuthenticated }
  match created with
  | .error e => (s, .error e)
  | .ok s1 =>
    if s1.sessionAuthenticated then
      let s2 := { s1 with identityPresent := true,
                          principal := some env.principalText, connected := true }
      match env.agentCreate with
      | .error e => (s2, .error (nfidClassifyConnectError e))
      | .ok _ => ({ s2 with agentPresent := true }, .ok env.principalText)
    else
      match env.login with
      | .error e => (s1, .error ("[NFID Wallet] Login failed: " ++ e))
      | .ok _ =>
        let s2 := { s1 with sessionAuthenticated := true, identityPresent := true,
                            principal := some env.principalText, connected := true }
        match env.agentCreate with
        | .error e => (s2, .error ("[NFID Wallet] Initialization failed: " ++ e))
        | .ok _ => ({ s2 with agentPresent := true }, .ok env.principalText)

/-- `NFIDWalletAdapter.disconnect()`: `authClient.logout()` (attempted only
when a client is held and connected) is swallowed; auth client, agent,
identity, principal and connected state are all cleared unconditionally and
the method never throws. -/
def nfidDisconnect (_s : NFIDState) (_logout : Except String Unit) : NFIDState :=
  { authClient := false, sessionAuthenticated := false, agentPresent := false,
    identityPresent := false, principal := none, connected := false }

/-- Error classification in the catch block of `NFIDWalletAdapter.transfer`. -/
def nfidClassifyTransferError (msg : String) : String :=
  if strIncludes msg "InsufficientFunds" then
    "[NFID Wallet] Insufficient balance for transfer"
  else if strIncludes msg "rejected" then
    "[NFID Wallet] Transfer rejected by user"
  else
    "[NFID Wallet] Transfer failed: " ++ msg

/-- `NFIDWalletAdapter.transfer(params)`: fails fast unless connected with an
agent, issues `icrc1_transfer` through the delegated-identity agent; an
explicit `result.Err` is thrown (naming the variant) and re-classified, and
otherwise the call resolves with `Number(result.Ok)` - again with no check on
the index value itself. -/
def nfidTransfer (s : NFIDState) (env : Except String Icrc1TransferResult) :
    TransferOutcome :=
  if !s.connected || !s.agentPresent then
    .threw "[NFID Wallet] Not connected to NFID wallet"
  else
    match env with
    | .error e => .threw (nfidClassifyTransferError e)
    | .ok r =>
      match r.Err with
      | some err =>
        .threw (nfidClassifyTransferError
          ("[NFID Wallet] Transfer failed: " ++ err.name ++ " - ..."))
      | none => .resolved (jsNumber r.Ok)

/-- `NFIDWalletAdapter.getBalance`: returns `0n` rather than throwing when
not fully connected or when the ICRC-1 query fails. -/
def nfidGetBalance (s : NFIDState) (query : Except String Nat) :
    Except String Nat :=
  if !s.connected || s.principal.isNone || !s.agentPresent then
    .ok 0
  else
    match query with
    | .ok b => .ok b
    | .error _ => .ok 0

/-- `NFIDWalletAdapter.isConnected()`: an `async` method, so every call
returns a promise; with no auth client it resolves to `false`, otherwise it
resolves to the live `authClient.isAuthenticated()` answer (falling back to
`false` if that query rejects) - it does not read the cached `connected`
flag. -/
def nfidIsConnected (s : NFIDState) : JsValue :=
  if !s.authClient then .promise false
  else .promise s.sessionAuthenticated

/-! ## Polymorphic adapter dispatch

The WalletManager holds heterogeneous adapter instances behind the
WalletAdapter duck-typed interface; the closed set of variants registered by
the PybaraAgent constructor is Oisy, Plug and NFID. -/

/-- State of one registered wallet adapter instance. -/
inductive AState where
  | plug (s : PlugState)
  | oisy (s : OisyState)
  | nfid (s : NFIDState)
deriving DecidableEq, Repr

/-- The adapter's `type` tag, set in each constructor. -/
def aType : AState → String
  | .plug _ => "plug"
  | .oisy _ => "oisy"
  | .nfid _ => "nfid"

/-- The adapter's display `name`, set in each constructor. -/
def aName : AState → String
  | .plug _ => "Plug Wallet"
  | .oisy _ => "Oisy Wallet"
  | .nfid _ => "NFID Wallet"

/-- The adapter's `website`, set in each constructor. -/
def aWebsite : AState → String
  | .plug _ => "https://plugwallet.ooo"
  | .oisy _ => "https://oisy.com"
  | .nfid _ => "https://nfid.one"

/-- Polymorphic `isAvailable()`: Plug probes `window.ic.plug`, Oisy probes
`window`, NFID is always available. -/
def aIsAvailable : AState → Bool
  | .plug s => s.available
  | .oisy s => s.windowPresent
  | .nfid _ => true

/-- Polymorphic `getPrincipal()` (inherited from the base class by all
three adapters): the cached identity or null. -/
def aPrincipal : AState → Option String
  | .plug s => s.principal
  | .oisy s => s.principal
  | .nfid s => s.principal

/-- Polymorphic `isConnected()`: synchronous booleans for Plug and Oisy, a
promise for NFID (its override is an async method). -/
def aIsConnected : AState → JsValue
  | .plug s => plugIsConnected s
  | .oisy s => oisyIsConnected s
  | .nfid s => nfidIsConnected s

/-- Per-variant backend environment for one polymorphic `connect()` call. -/
structure ConnectEnv where
  plugEnv : PlugConnectEnv
  oisyEnv : OisyConnectEnv
  nfidEnv : NFIDConnectEnv

/-- Per-variant backend environment for one polymorphic `disconnect()` call:
each adapter issues (at most) one backend disconnect/logout whose outcome it
swallows. -/
structure DisconnectEnv where
  backend : Except String Unit

/-- Per-variant backend environment for one polymorphic `transfer()` call. -/
structure ATransferEnv where
  plugEnv : PlugTransferEnv
  oisyEnv : OisyTransferEnv
  nfidEnv : Except String Icrc1TransferResult

/-- Per-variant backend environment for one polymorphic `getBalance()` call. -/
structure BalanceEnv where
  agentPresent : Bool
  query : Except String Nat

/-- Polymorphic `connect()`. -/
def aConnect (a : AState) (env : ConnectEnv) : AState × Except String String :=
  match a with
  | .plug s => let (s1, r) := plugConnect s env.plugEnv; (.plug s1, r)
  | .oisy s => let (s1, r) := oisyConnect s env.oisyEnv; (.oisy s1, r)
  | .nfid s => let (s1, r) := nfidConnect s env.nfidEnv; (.nfid s1, r)

/-- Polymorphic `disconnect()`: total, because all three adapters swallow
their backend disconnect errors and always clear local state. -/
def aDisconnect (a : AState) (env : DisconnectEnv) : AState :=
  match a with
  | .plug s => .plug (plugDisconnect s env.backend)
  | .oisy s => .oisy (oisyDisconnect s env.backend)
  | .nfid s => .nfid (nfidDisconnect s env.backend)

/-- Polymorphic `transfer(params)`: returns the possibly-updated adapter
state (only Oisy touches its own fields, clearing the transient signer) and
the outcome. -/
def aTransfer (a : AState) (params : TransferRequest) (env : ATransferEnv) :
    AState × TransferOutcome :=
  match a with
  | .plug s => (.plug s, plugTransfer s params.token env.plugEnv)
  | .oisy s => let (s1, r) := oisyTransfer s params.token env.oisyEnv; (.oisy s1, r)
  | .nfid s => (.nfid s, nfidTransfer s env.nfidEnv)

/-- Polymorphic `getBalance(ledgerId, token)`. -/
def aGetBalance (a : AState) (env : BalanceEnv) : Except String Nat :=
  match a with
  | .plug s => plugGetBalance s env.agentPresent env.query
  | .oisy s => oisyGetBalance s
  | .nfid s => nfidGetBalance s env.query

/-! ## Wallet orchestrator (WalletManager.js) -/

/-- Event payloads emitted by the WalletManager. -/
inductive WMEvent where
  | connected (wallet : String) (principal : String)
  | disconnected (wallet : String)
  | transfer (wallet : String) (blockIndex : JsNum) (params : TransferRequest)
  | error (wallet : String) (msg : String) (action : Option String)
deriving DecidableEq, Repr

/-- `Map.set` on the type-keyed adapter registry: replaces in place or
appends, preserving insertion order. -/
def registrySet (m : List (String × AState)) (k : String) (v : AState) :
    List (String × AState) :=
  match m with
  | [] => [(k, v)]
  | (k0, v0) :: rest =>
    if k0 = k then (k, v) :: rest else (k0, v0) :: registrySet rest k v

/-- WalletManager state: the type-to-adapter registry and the single active
adapter.  In JS `activeWallet` aliases the registry entry (same object); here
it is represented by the adapter's unique type key. -/
structure WMState where
  wallets : List (String × AState)
  activeWallet : Option String := none
deriving DecidableEq, Repr

/-- `WalletManager.registerWallet(adapter)`: inserts under the adapter's type
tag.  The guard throwing on a null tag never fires for the three registered
variants, whose tags are the non-empty literals set in their constructors. -/
def wmRegisterWallet (st : WMState) (a : AState) : WMState :=
  { st with wallets := registrySet st.wallets (aType a) a }

/-- `WalletManager.getActiveWalletType()`: `this.activeWallet?.type || null`
(the type tags are non-empty strings, hence always truthy). -/
def wmGetActiveWalletType (st : WMState) : Option String :=
  st.activeWallet

/-- `WalletManager.isConnected()`: `this.activeWallet?.isConnected() || false`.
With no active adapter the optional chain is undefined and the disjunction
yields the boolean `false`; with an active adapter the result is whatever the
adapter returns - for NFID that is a promise, which as a truthy object
short-circuits the `|| false`. -/
def wmIsConnected (st : WMState) : JsValue :=
  match st.activeWallet.bind (fun ty => st.wallets.lookup ty) with
  | none => .bool false
  | some a =>
    match aIsConnected a with
    | .bool b => .bool b
    | .promise p => .promise p

/-- `WalletManager.getPrincipal()`: `this.activeWallet?.getPrincipal() || null`. -/
def wmGetPrincipal (st : WMState) : Option String :=
  match st.activeWallet.bind (fun ty => st.wallets.lookup ty) with
  | none => none
  | some a => aPrincipal a

/-- Result of `WalletManager.connect(type)`.  `events` pairs each emitted
event with the manager state at the moment of emission: `emit` invokes the
listeners synchronously, so this is exactly the state a listener observes
through the manager's query methods.  `calls` records which adapter methods
were invoked, as (type tag, method name) pairs. -/
structure WMConnectResult where
  state : WMState
  events : List (WMEvent × WMState)
  calls : List (String × String)
  result : Except String String
deriving Repr

/-- `WalletManager.connect(type)`: looks the adapter up by tag ("Wallet not
found" if absent), checks availability ("not installed" with the remediation
link otherwise), then awaits the adapter's `connect()`.  On success the
active-adapter reference is assigned first and the `connected` event is
emitted afterwards; on failure an `error` event is emitted and the error is
re-thrown with the active adapter left as it was. -/
def wmConnect (st : WMState) (ty : String) (env : ConnectEnv) : WMConnectResult :=
  match st.wallets.lookup ty with
  | none => ⟨st, [], [], .error ("Wallet not found: " ++ ty)⟩
  | some w =>
    if !aIsAvailable w then
      ⟨st, [], [], .error (aName w ++ " is not installed. Get it at: " ++ aWebsite w)⟩
    else
      match aConnect w env with
      | (w1, .ok p) =>
        let st1 : WMState :=
          { wallets := registrySet st.wallets ty w1, activeWallet := some ty }
        ⟨st1, [(.connected ty p, st1)], [(ty, "connect")], .ok p⟩
      | (w1, .error e) =>
        let st1 : WMState :=
          { wallets := registrySet st.wallets ty w1, activeWallet := st.activeWallet }
        ⟨st1, [(.error ty e none, st1)], [(ty, "connect")], .error e⟩

/-- Result of `WalletManager.disconnect()`. -/
structure WMDisconnectResult where
  state : WMState
  events : List (WMEvent × WMState)
  calls : List (String × String)
  result : Except String Unit
deriving Repr

/-- `WalletManager.disconnect()`: a warning-only no-op when nothing is
active; otherwise awaits the active adapter's `disconnect()` (total for the
three registered adapters, which swallow their backend errors internally, so
the manager's rethrowing catch never fires), clears the active reference and
then emits `disconnected`. -/
def wmDisconnect (st : WMState) (env : DisconnectEnv) : WMDisconnectResult :=
  match st.activeWallet with
  | none => ⟨st, [], [], .ok ()⟩
  | some ty =>
    match st.wallets.lookup ty with
    | none => ⟨st, [], [], .ok ()⟩
    | some w =>
      let w1 := aDisconnect w env
      let st1 : WMState :=
        { wallets := registrySet st.wallets ty w1, activeWallet := none }
      ⟨st1, [(.disconnected ty, st1)], [(ty, "disconnect")], .ok ()⟩

/-- Result of `WalletManager.transfer(params)`. -/
structure WMTransferResult where
  state : WMState
  events : List (WMEvent × WMState)
  calls : List (String × String)
  outcome : TransferOutcome
deriving Repr

/-- `WalletManager.transfer(params)`: throws "No wallet connected" with no
adapter call when nothing is active; otherwise delegates to the active
adapter, emitting `transfer` on success and `error` (with `action:
"transfer"`) plus a re-throw on failure. -/
def wmTransfer (st : WMState) (params : TransferRequest) (env : ATransferEnv) :
    WMTransferResult :=
  match st.activeWallet with
  | none => ⟨st, [], [], .threw "No wallet connected"⟩
  | some ty =>
    match st.wallets.lookup ty with
    | none => ⟨st, [], [], .threw "No wallet connected"⟩
    | some w =>
      match aTransfer w params env with
      | (w1, .resolved v) =>
        let st1 : WMState := { st with wallets := registrySet st.wallets ty w1 }
        ⟨st1, [(.transfer ty v params, st1)], [(ty, "transfer")], .resolved v⟩
      | (w1, .threw e) =>
        let st1 : WMState := { st with wallets := registrySet st.wallets ty w1 }
        ⟨st1, [(.error ty e (some "transfer"), st1)], [(ty, "transfer")], .threw e⟩

/-! ## Ledger configuration (utils/ledger-config.js) -/

/-- The LEDGER_IDS token-to-canister map. -/
def LEDGER_IDS : String → Option String
  | "ICP" => some "ryjl3-tyaaa-aaaaa-aaaba-cai"
  | "ckBTC" => some "mxzaz-hqaaa-aaaar-qaada-cai"
  | "ckETH" => some "ss2fx-dyaaa-aaaar-qacoq-cai"
  | "ckUSDC" => some "xevnm-gaaaa-aaaar-qafnq-cai"
  | "ckUSDT" => some "cngnf-vqaaa-aaaar-qag4q-cai"
  | _ => none

/-- `getLedgerCanisterId(token)`: the configured ledger, or - after a console
warning - the ICP ledger (`LEDGER_IDS['ICP']`) for an unknown token. -/
def getLedgerCanisterId (token : String) : String :=
  match LEDGER_IDS token with
  | some ledgerId => ledgerId
  | none => (LEDGER_IDS "ICP").getD ""

/-! ## Balance checker (utils/balance-checker.js) -/

/-- Result shape of `checkSufficientBalance`; the optional fields are absent
(`none`) exactly when the source does not set them. -/
structure BalanceCheckResult where
  sufficient : Bool
  balance : Nat
  shortfall : Option Nat := none
  error : Option String := none
deriving DecidableEq, Repr

/-- `checkSufficientBalance(principal, ledgerId, requiredAmount, token)`:
compares the advisory ledger balance query against the required amount; if
the query itself rejects, it reports `sufficient: true` (balance 0) together
with the error message, deliberately not blocking the payment. -/
def checkSufficientBalance (query : Except String Nat) (requiredAmount : Nat) :
    BalanceCheckResult :=
  match query with
  | .ok balance =>
    if balance ≥ requiredAmount then
      { sufficient := true, balance := balance }
    else
      { sufficient := false, balance := balance,
        shortfall := some (requiredAmount - balance) }
  | .error e => { sufficient := true, balance := 0, error := some e }

/-- Truthiness of `!x` for an optional JS string (undefined and the empty
string are falsy). -/
def jsFalsyOptStr : Option String → Bool
  | none => true
  | some s => s = ""

/-! ## Payment Agent (core/PybaraAgent.js) -/

/-- How far `PybaraAgent.sendCustomerPaymentToPybaraCore` gets before
handing off: it throws for a missing wallet, throws `Insufficient <token>
balance`, or invokes the orchestrator's `transfer` with the assembled
request. -/
inductive CustomerPaymentAction where
  | notConnected
  | insufficientBalance (msg : String)
  | orchestratorTransfer (request : TransferRequest)
deriving DecidableEq, Repr

/-- `PybaraAgent.sendCustomerPaymentToPybaraCore(amountE8s, corePrincipal,
token)` up to the orchestrator hand-off: requires a connected wallet,
resolves the token's ledger, runs the advisory balance check and throws the
insufficient-balance error only when the check is both unsatisfied and
error-free (`!balanceCheck.sufficient && !balanceCheck.error`); otherwise it
calls `walletManager.transfer` with the request. -/
def sendCustomerPaymentToPybaraCore (walletConnected : Bool) (amountE8s : Nat)
    (pybaraCorePrincipal : String) (token : String)
    (balanceQuery : Except String Nat) : CustomerPaymentAction :=
  if !walletConnected then
    .notConnected
  else
    let ledgerCanisterId := getLedgerCanisterId token
    let balanceCheck := checkSufficientBalance balanceQuery amountE8s
    if !balanceCheck.sufficient && jsFalsyOptStr balanceCheck.error then
      .insufficientBalance ("Insufficient " ++ token ++ " balance")
    else
      .orchestratorTransfer
        { «to» := pybaraCorePrincipal, amount := amountE8s,
          ledgerCanisterId := ledgerCanisterId, token := token }

/-- Payload of the new-format `create_payment_record` success (`result.ok`). -/
structure PaymentInitOk where
  payment_id : Nat
  expected_amount : Nat
  price_usd : Rat
  merchant_principal : String
deriving DecidableEq, Repr

/-- Decoded `create_payment_record` response as `PybaraAgent.createPaymentRecord`
probes it.  The method accepts two shapes: the new `Result<PaymentInit,
Text>` variant (fields `ok`/`err`) and the legacy positional record of the
canister IDL (`status`, plus Candid opt fields decoded as 0/1-element
arrays).  A field that the response object does not carry at all is `none`;
a Candid opt field that is present but empty is `some []`. -/
structure CreateRecordResponse where
  ok : Option PaymentInitOk := none
  err : Option String := none
  status : Option String := none
  error : Option (List String) := none
  expected_amount : Option (List Nat) := none
  price_used : Option (List Rat) := none
  payment_id : Option (List Nat) := none
deriving DecidableEq, Repr

/-- What `createPaymentRecord` hands back to its caller. -/
inductive CreateRecordOutcome where
  | threw (msg : String)
  | returned (payment_id : Nat) (expected_amount : Nat) (price_usd : Option Rat)
      (merchant_principal : String)
deriving DecidableEq, Repr

/-- Message of the throw in the final else-branch of `createPaymentRecord`:
`result.err || (result.error && result.error[0]) || 'Failed to initialize
payment'` with JS truthiness (empty strings are falsy, arrays are truthy). -/
def createRecordErrMsg (resp : CreateRecordResponse) : String :=
  let fallback : String :=
    match resp.error with
    | some (e :: _) => if e = "" then "Failed to initialize payment" else e
    | _ => "Failed to initialize payment"
  match resp.err with
  | some e => if e = "" then fallback else e
  | none => fallback

/-- `PybaraAgent.createPaymentRecord(params)` response handling: prefers the
new `result.ok` shape; otherwise accepts the legacy positional-success shape
(`result.status === 'success' && result.expected_amount &&
result.expected_amount.length > 0`), synthesising the payment id from
`result.payment_id[0]` when that opt is non-empty and falling back to the
caller's `orderId` when it is absent or empty; anything else throws.  In the
legacy branch `result.price_used[0]` is read unconditionally, which in JS
faults when the field is missing altogether (it never is for responses
decoded through the canister IDL, where it is a Candid opt). -/
def createPaymentRecord (orderId : Nat) (merchantPrincipal : String)
    (resp : CreateRecordResponse) : CreateRecordOutcome :=
  match resp.ok with
  | some p =>
    .returned p.payment_id p.expected_amount (some p.price_usd) p.merchant_principal
  | none =>
    if resp.status = some "success" then
      match resp.expected_amount with
      | some (ea0 :: _) =>
        match resp.price_used with
        | none => .threw "TypeError: Cannot read properties of undefined (reading 0)"
        | some priceList =>
          let pid : Nat :=
            match resp.payment_id with
            | some (pid0 :: _) => pid0
            | _ => orderId
          .returned pid ea0 priceList.head? merchantPrincipal
      | _ => .threw (createRecordErrMsg resp)
    else
      .threw (createRecordErrMsg resp)

/-! ## Configuration (core/config.js) and agent construction -/

/-- The hard-coded default allow-list of enabled wallets (NFID excluded since
v2.5.0). -/
def DEFAULT_ENABLED_WALLETS : List String := ["oisy", "plug"]

/-- The caller-supplied configuration object, with absent keys as `none`
(only the keys the embedded core consults are carried). -/
structure UserConfig where
  canisterId : Option String := none
  host : Option String := none
  isMainnet : Option Bool := none
  enabledWallets : Option (List String) := none
  debug : Option Bool := none
deriving DecidableEq, Repr

/-- The merged configuration produced by `createConfig`. -/
structure FullConfig where
  canisterId : String
  host : String
  isMainnet : Bool
  enabledWallets : List String
  debug : Bool
deriving DecidableEq, Repr

/-- `createConfig(userConfig)`: `{ ...DEFAULT_CONFIG, ...userConfig }` - a
plain object spread, so every key the caller supplies replaces the default
wholesale and no validation or filtering is applied. -/
def createConfig (u : UserConfig) : FullConfig :=
  { canisterId := u.canisterId.getD "zvgwv-zyaaa-aaaac-qchaq-cai",
    host := u.host.getD "https://icp-api.io",
    isMainnet := u.isMainnet.getD true,
    enabledWallets := u.enabledWallets.getD DEFAULT_ENABLED_WALLETS,
    debug := u.debug.getD false }

/-- Fresh Plug adapter state as built by `new PlugWalletAdapter(isMainnet,
debug)` in an environment where the extension probe answers
`plugInstalled`. -/
def plugInit (plugInstalled : Bool) : PlugState :=
  { available := plugInstalled }

/-- Fresh Oisy adapter state as built by `new OisyWalletAdapter(isMainnet,
debug)` in a browser (`window` present). -/
def oisyInit : OisyState :=
  { windowPresent := true }

/-- Fresh NFID adapter state as built by `new NFIDWalletAdapter(debug)`. -/
def nfidInit : NFIDState := {}

/-- The wallet system assembled by the `PybaraAgent` constructor: a fresh
WalletManager into which the Oisy, Plug and NFID adapters are registered
unconditionally - the merged configuration's `enabledWallets` list is never
consulted. -/
def pybaraAgentWalletManager (_cfg : UserConfig) (plugInstalled : Bool) : WMState :=
  let m0 : WMState := { wallets := [] }
  let m1 := wmRegisterWallet m0 (.oisy oisyInit)
  let m2 := wmRegisterWallet m1 (.plug (plugInit plugInstalled))
  wmRegisterWallet m2 (.nfid nfidInit)

/-- The set of wallet types registered (and hence offered) by a freshly
constructed Payment Agent. -/
def pybaraAgentRegisteredWallets (cfg : UserConfig) (plugInstalled : Bool) :
    List String :=
  (pybaraAgentWalletManager cfg plugInstalled).wallets.map Prod.fst

/-! ## Reachable adapter states

One constructor per public adapter operation (`connect`, `disconnect`,
`transfer`, `getBalance`), each taking an arbitrary backend environment. -/

/-- Adapter states reachable from a freshly constructed adapter through the
public operations. -/
inductive AReach : AState → Prop where
  | initPlug (plugInstalled : Bool) : AReach (.plug (plugInit plugInstalled))
  | initOisy : AReach (.oisy oisyInit)
  | initNfid : AReach (.nfid nfidInit)
  | connect {a : AState} (env : ConnectEnv) :
      AReach a → AReach (aConnect a env).1
  | disconnect {a : AState} (env : DisconnectEnv) :
      AReach a → AReach (aDisconnect a env)
  | transfer {a : AState} (params : TransferRequest) (env : ATransferEnv) :
      AReach a → AReach (aTransfer a params env).1

/-- The connection-state invariant of one adapter, as a decidable check: the
cached identity is non-null exactly when the cached connected flag is set,
Plug is only ever connected while its extension is present, and NFID is only
ever connected while it holds an authenticated auth client (so its reported
connection status agrees with its cached flag). -/
def aInvariant : AState → Bool
  | .plug s => (s.connected == s.principal.isSome) && (!s.connected || s.available)
  | .oisy s => s.connected == s.principal.isSome
  | .nfid s =>
    (s.connected == s.principal.isSome) &&
    (s.connected == (s.authClient && s.sessionAuthenticated))

/-- The boolean an awaiting caller obtains from the adapter's
`isConnected()` report (for NFID, the value its promise resolves to). -/
def aReportsConnected (a : AState) : Bool :=
  match aIsConnected a with
  | .bool b => b
  | .promise b => b

/-! ## Concrete fixtures used by the witnesses -/

/-- A Plug adapter state right after a successful connect. -/
def plugConnectedFixture : PlugState :=
  { available := true, principal := some "aaaaa-aa", connected := true }

/-- An Oisy adapter state right after a successful connect. -/
def oisyConnectedFixture : OisyState :=
  { windowPresent := true, principal := some "aaaaa-aa", connected := true }

/-- An NFID adapter state right after a successful connect. -/
def nfidConnectedFixture : NFIDState :=
  { authClient := true, sessionAuthenticated := true, agentPresent := true,
    identityPresent := true, principal := some "aaaaa-aa", connected := true }

/-- An NFID adapter state whose cached flag still says connected but whose
delegation session has expired on the auth client. -/
def nfidStaleSessionFixture : NFIDState :=
  { authClient := true, sessionAuthenticated := false, agentPresent := true,
    identityPresent := true, principal := some "aaaaa-aa", connected := true }

/-- A backend environment in which every connect-path call succeeds and the
wallet reports the principal "aaaaa-aa". -/
def allOkConnectEnv : ConnectEnv :=
  { plugEnv := { requestConnect := .ok true, getPrincipal := .ok "aaaaa-aa" },
    oisyEnv := { connect := .ok (), accounts := .ok ["aaaaa-aa"],
                 popupDisconnect := .ok () },
    nfidEnv := { authCreate := .ok (), alreadyAuthenticated := true,
                 principalText := "aaaaa-aa", login := .ok (),
                 agentCreate := .ok () } }

/-- A manager state with a connected Plug adapter active. -/
def wmPlugActiveFixture : WMState :=
  { wallets := [("plug", .plug plugConnectedFixture)],
    activeWallet := some "plug" }

/-- A manager state with the stale-session NFID adapter active. -/
def wmNfidActiveFixture : WMState :=
  { wallets := [("nfid", .nfid nfidStaleSessionFixture)],
    activeWallet := some "nfid" }

/-- A manager state with a connected Oisy adapter active and a fresh Plug
adapter also registered. -/
def wmOisyActivePlugRegisteredFixture : WMState :=
  { wallets := [("oisy", .oisy oisyConnectedFixture),
                ("plug", .plug (plugInit true))],
    activeWallet := some "oisy" }

/-! ## Helper lemmas -/

/-- Updating the registry under one key leaves lookups of any other key
unchanged. -/
theorem registrySet_lookup_ne (m : List (String × AState)) (k k0 : String)
    (v : AState) (h : k0 ≠ k) :
    (registrySet m k v).lookup k0 = m.lookup k0 := by
  have hbeq : (k0 == k) = false := beq_eq_false_iff_ne.mpr h
  induction m with
  | nil => simp [registrySet, List.lookup, hbeq]
  | cons hd tl ih =>
    obtain ⟨k1, v1⟩ := hd
    by_cases hk : k1 = k
    · subst hk
      simp [registrySet, List.lookup, hbeq]
    · simp only [registrySet, hk, if_false, List.lookup]
      by_cases hk0 : k0 = k1
      · simp [hk0]
      · simp [beq_eq_false_iff_ne.mpr hk0, ih]

/-- Updating the registry under a key makes that key's lookup the new value. -/
theorem registrySet_lookup_self (m : List (String × AState)) (k : String)
    (v : AState) : (registrySet m k v).lookup k = some v := by
  induction m with
  | nil => simp [registrySet, List.lookup]
  | cons hd tl ih =>
    obtain ⟨k1, v1⟩ := hd
    by_cases hk : k1 = k
    · subst hk
      simp [registrySet, List.lookup]
    · simp only [registrySet, hk, if_false, List.lookup]
      have : (k == k1) = false := beq_eq_false_iff_ne.mpr (Ne.symm hk)
      simp [this, ih]

/-- `PlugWalletAdapter.connect` preserves the Plug connection-state
invariant. -/
theorem plugConnect_inv (s : PlugState) (env : PlugConnectEnv)
    (h : ((s.connected == s.principal.isSome) && (!s.connected || s.available)) = true) :
    (((plugConnect s env).1.connected == (plugConnect s env).1.principal.isSome) &&
      (!(plugConnect s env).1.connected || (plugConnect s env).1.available)) = true := by
  unfold plugConnect
  split
  · exact h
  · rcases env.requestConnect with e | b
    · simpa using h
    · rcases b with _ | _
      · simpa using h
      · rcases env.getPrincipal with e | p
        · simpa using h
        · simp_all

/-- `OisyWalletAdapter.connect` preserves the Oisy connection-state
invariant. -/
theorem oisyConnect_inv (s : OisyState) (env : OisyConnectEnv)
    (h : (s.connected == s.principal.isSome) = true) :
    ((oisyConnect s env).1.connected == (oisyConnect s env).1.principal.isSome) = true := by
  unfold oisyConnect
  rcases env.connect with e | u
  · simpa using h
  · rcases env.accounts with e | l
    · simpa using h
    · rcases l with _ | ⟨a, rest⟩
      · simpa using h
      · rcases env.popupDisconnect with e | u <;> simp

/-- `NFIDWalletAdapter.connect` preserves the NFID connection-state
invariant. -/
theorem nfidConnect_inv (s : NFIDState) (env : NFIDConnectEnv)
    (h : ((s.connected == s.principal.isSome) &&
          (s.connected == (s.authClient && s.sessionAuthenticated))) = true) :
    (((nfidConnect s env).1.connected == (nfidConnect s env).1.principal.isSome) &&
      ((nfidConnect s env).1.connected ==
        ((nfidConnect s env).1.authClient && (nfidConnect s env).1.sessionAuthenticated))) = true := by
  unfold nfidConnect
  by_cases hac : s.authClient
  · by_cases hsa : s.sessionAuthenticated
    · rcases env.agentCreate with e | u <;> simp [hac, hsa]
    · rcases env.login with e | u
      · simpa [hac, hsa] using h
      · rcases env.agentCreate with e | u <;> simp [hac, hsa]
  · rcases env.authCreate with e | u
    · simpa [hac] using h
    · by_cases hal : env.alreadyAuthenticated
      · rcases env.agentCreate with e | u <;> simp [hac, hal]
      · rcases env.login with e | u
        · cases hp : s.principal <;> simp_all
        · rcases env.agentCreate with e | u <;> simp [hac, hal]

/-- Every state reachable through the public adapter operations satisfies the
connection-state invariant (`getBalance` is omitted from the reachability
relation because none of the three implementations writes any adapter field). -/
theorem areach_invariant (a : AState) (h : AReach a) : aInvariant a = true := by
  induction h with
  | initPlug plugInstalled => simp [aInvariant, plugInit]
  | initOisy => simp [aInvariant, oisyInit]
  | initNfid => simp [aInvariant, nfidInit]
  | connect env hr ih =>
    rename_i a0
    rcases a0 with s | s | s
    · simpa [aInvariant, aConnect] using plugConnect_inv s env.plugEnv (by simpa [aInvariant] using ih)
    · simpa [aInvariant, aConnect] using oisyConnect_inv s env.oisyEnv (by simpa [aInvariant] using ih)
    · simpa [aInvariant, aConnect] using nfidConnect_inv s env.nfidEnv (by simpa [aInvariant] using ih)
  | disconnect env hr ih =>
    rename_i a0
    rcases a0 with s | s | s <;>
      simp [aInvariant, aDisconnect, plugDisconnect, oisyDisconnect, nfidDisconnect]
  | transfer params env hr ih =>
    rename_i a0
    rcases a0 with s | s | s
    · simpa [aInvariant, aTransfer] using ih
    · have hinv : (s.connected == s.principal.isSome) = true := by
        simpa [aInvariant] using ih
      have : ((oisyTransfer s params.token env.oisyEnv).1.connected ==
          (oisyTransfer s params.token env.oisyEnv).1.principal.isSome) = true := by
        unfold oisyTransfer
        by_cases hc : s.connected
        · rcases env.oisyEnv.reconnect with e | u
          · simpa [hc] using hinv
          · rcases env.oisyEnv.transferCall with e | bi
            · simpa [hc] using hinv
            · rcases env.oisyEnv.popupDisconnect with e | u <;> simpa [hc] using hinv
        · simpa [hc] using hinv
      simpa [aInvariant, aTransfer] using this
    · simpa [aInvariant, aTransfer] using ih

/-! ## Claims -/

/-- C1 (counterexample): the claim that a zero block-index receipt makes
`transfer` throw is false for all three adapters - with a connected adapter
and a backend transfer that succeeds with block index 0, Plug, Oisy and NFID
all resolve with the value 0 instead of throwing. -/
theorem C1_counterexample_zero_receipt_resolves :
    plugTransfer plugConnectedFixture "ICP"
        { agentPresent := true, ledgerCall := .ok { Ok := some 0 } } =
      .resolved (.num 0)
    ∧ (oisyTransfer oisyConnectedFixture "ICP"
        { reconnect := .ok (), transferCall := .ok (some 0), popupDisconnect := .ok () }).2 =
      .resolved (.num 0)
    ∧ nfidTransfer nfidConnectedFixture (.ok { Ok := some 0 }) =
      .resolved (.num 0) :=
  ⟨rfl, rfl, rfl⟩

/-- C1 (amended): an explicit backend error result or a rejected backend call
makes `transfer` throw, but the success-path block index is never validated:
each adapter resolves with the plain numeric normalization of whatever index
the backend reported - 0 for a zero index and NaN for a missing/undefined
one. -/
theorem C1_amended_receipt_not_validated (token : String) (bi : Option Nat)
    (sP : PlugState) (sO : OisyState) (sN : NFIDState)
    (hP : sP.connected = true) (hO : sO.connected = true)
    (hN : sN.connected = true) (hNa : sN.agentPresent = true) :
    plugTransfer sP token { agentPresent := true, ledgerCall := .ok { Ok := bi } } =
      .resolved (jsNumber bi)
    ∧ (oisyTransfer sO token
        { reconnect := .ok (), transferCall := .ok bi, popupDisconnect := .ok () }).2 =
      .resolved (jsNumber bi)
    ∧ nfidTransfer sN (.ok { Ok := bi }) = .resolved (jsNumber bi) := by
  refine ⟨?_, ?_, ?_⟩
  · simp [plugTransfer, hP]
  · simp [oisyTransfer, hO]
  · simp [nfidTransfer, hN, hNa]

/-- C1 (witness for the amended claim, at a zero receipt). -/
theorem C1_amended_witness :
    plugTransfer plugConnectedFixture "ckBTC"
        { agentPresent := true, ledgerCall := .ok { Ok := some 0 } } =
      .resolved (jsNumber (some 0))
    ∧ (oisyTransfer oisyConnectedFixture "ckBTC"
        { reconnect := .ok (), transferCall := .ok (some 0), popupDisconnect := .ok () }).2 =
      .resolved (jsNumber (some 0))
    ∧ nfidTransfer nfidConnectedFixture (.ok { Ok := some 0 }) =
      .resolved (jsNumber (some 0)) :=
  C1_amended_receipt_not_validated "ckBTC" (some 0) _ _ _ rfl rfl rfl rfl

/-- C2: with a connected wallet, the customer-payment step throws the
insufficient-balance error before reaching the orchestrator's transfer
exactly when the advisory balance query succeeds with a balance strictly
below the required amount; when the query itself errors, the orchestrator
transfer is still attempted. -/
theorem C2_insufficient_balance_short_circuit (amount : Nat)
    (recipient token : String) (q : Except String Nat) :
    (sendCustomerPaymentToPybaraCore true amount recipient token q =
        .insufficientBalance ("Insufficient " ++ token ++ " balance")
      ↔ ∃ b, q = .ok b ∧ b < amount)
    ∧ ∀ e, q = .error e →
        sendCustomerPaymentToPybaraCore true amount recipient token q =
          .orchestratorTransfer
            { «to» := recipient, amount := amount,
              ledgerCanisterId := getLedgerCanisterId token, token := token } := by
  constructor
  · rcases q with e | b
    · simp [sendCustomerPaymentToPybaraCore, checkSufficientBalance, jsFalsyOptStr]
    · by_cases hb : b < amount
      · simp [sendCustomerPaymentToPybaraCore, checkSufficientBalance,
          jsFalsyOptStr, Nat.not_le.mpr hb, hb]
      · simp [sendCustomerPaymentToPybaraCore, checkSufficientBalance,
          jsFalsyOptStr, Nat.le_of_not_lt hb, hb]
  · intro e he
    subst he
    simp [sendCustomerPaymentToPybaraCore, checkSufficientBalance, jsFalsyOptStr]

/-- C2 (witness): the concrete scenario - balance 10, required 50, balance
query successful - throws InsufficientFunds before the orchestrator
transfer. -/
theorem C2_witness :
    sendCustomerPaymentToPybaraCore true 50 "zvgwv-zyaaa-aaaac-qchaq-cai" "ICP" (.ok 10) =
      .insufficientBalance ("Insufficient " ++ "ICP" ++ " balance") :=
  (C2_insufficient_balance_short_circuit 50 "zvgwv-zyaaa-aaaac-qchaq-cai" "ICP" (.ok 10)).1.mpr
    ⟨10, rfl, by decide⟩

/-- C3: a legacy positional-success response (status "success", non-empty
expected_amount opt, empty or absent payment_id opt, price_used opt present
as the canister IDL guarantees) makes `createPaymentRecord` return normally
with the payment id synthesised from the caller's order id. -/
theorem C3_legacy_shape_falls_back_to_order_id (orderId : Nat)
    (merchant : String) (resp : CreateRecordResponse) (ea0 : Nat)
    (rest : List Nat) (priceList : List Rat)
    (hok : resp.ok = none) (hst : resp.status = some "success")
    (hea : resp.expected_amount = some (ea0 :: rest))
    (hpid : resp.payment_id = none ∨ resp.payment_id = some [])
    (hpu : resp.price_used = some priceList) :
    createPaymentRecord orderId merchant resp =
      .returned orderId ea0 priceList.head? merchant := by
  unfold createPaymentRecord
  rw [hok, hst, hea, hpu]
  rcases hpid with hpid | hpid <;> simp [hpid]

/-- C3 (witness): a concrete legacy response with expected amount 7347 and no
payment id yields payment id 42 (the order id) without throwing. -/
theorem C3_witness :
    createPaymentRecord 42 "dc5fu-5fpyx"
        { status := some "success", error := some [],
          expected_amount := some [7347], price_used := some [],
          payment_id := some [] } =
      .returned 42 7347 (List.head? ([] : List Rat)) "dc5fu-5fpyx" :=
  C3_legacy_shape_falls_back_to_order_id 42 "dc5fu-5fpyx" _ 7347 [] []
    rfl rfl rfl (Or.inr rfl) rfl

/-- C4: disconnecting an orchestrator with an active adapter always leaves
`getActiveWalletType()` null and `isConnected()` false, and resolves
normally, for every backend-disconnect outcome - the three adapters swallow
their backend disconnect errors internally, so nothing surfaces. -/
theorem C4_disconnect_clears_state (st : WMState) (ty : String) (w : AState)
    (env : DisconnectEnv)
    (hactive : st.activeWallet = some ty)
    (hw : st.wallets.lookup ty = some w) :
    wmGetActiveWalletType (wmDisconnect st env).state = none
    ∧ wmIsConnected (wmDisconnect st env).state = .bool false
    ∧ (wmDisconnect st env).result = .ok () := by
  simp [wmDisconnect, hactive, hw, wmGetActiveWalletType, wmIsConnected]

/-- C4 (witness): a connected Plug adapter whose backend disconnect call
rejects. -/
theorem C4_witness :
    wmGetActiveWalletType
      (wmDisconnect wmPlugActiveFixture { backend := .error "network down" }).state = none
    ∧ wmIsConnected
      (wmDisconnect wmPlugActiveFixture { backend := .error "network down" }).state = .bool false
    ∧ (wmDisconnect wmPlugActiveFixture { backend := .error "network down" }).result = .ok () :=
  C4_disconnect_clears_state _ "plug" _ _ rfl rfl

/-- C5 (code evaluation at the failing input): NFID's `isConnected` override
is an async method delegating to the live `authClient.isAuthenticated()`
query, so with a cached connected flag of `true` but an expired session it
returns a promise resolving to `false` - not the synchronous boolean `true`
the contract requires - and the orchestrator's `isConnected()` then yields
that promise (a truthy non-boolean) instead of a boolean. -/
theorem C5_nfid_isConnected_live_async_query :
    nfidStaleSessionFixture.connected = true
    ∧ nfidIsConnected nfidStaleSessionFixture = .promise false
    ∧ wmIsConnected wmNfidActiveFixture = .promise false :=
  ⟨rfl, rfl, rfl⟩

/-- C6 (code evaluation at the failing input): `createConfig` replaces the
enabled-wallet list wholesale (no intersection with the hard-coded default
allow-list), and the constructed agent registers the fixed set
oisy/plug/nfid regardless of the caller's request - so for the request
["oisy", "plug", "nfid"] the enabled set is not the intersection
["oisy", "plug"], and for the request ["oisy"] the agent still offers all
three wallets. -/
theorem C6_enabled_wallets_not_filtered :
    (createConfig { enabledWallets := some ["oisy", "plug", "nfid"] }).enabledWallets =
      ["oisy", "plug", "nfid"]
    ∧ List.filter (fun w => DEFAULT_ENABLED_WALLETS.contains w)
        ["oisy", "plug", "nfid"] = ["oisy", "plug"]
    ∧ pybaraAgentRegisteredWallets { enabledWallets := some ["oisy", "plug", "nfid"] } true =
      ["oisy", "plug", "nfid"]
    ∧ pybaraAgentRegisteredWallets { enabledWallets := some ["oisy"] } true =
      ["oisy", "plug", "nfid"] := by
  refine ⟨rfl, by decide, rfl, rfl⟩

/-- C7: on every adapter state reachable through the public operations, the
adapter holds a non-null identity exactly when it reports itself connected. -/
theorem C7_identity_iff_reports_connected (a : AState) (h : AReach a) :
    aReportsConnected a = true ↔ (aPrincipal a).isSome = true := by
  have hinv := areach_invariant a h
  rcases a with s | s | s
  · have h1 : (s.connected == s.principal.isSome) = true ∧
        (!s.connected || s.available) = true := by
      simpa [aInvariant] using hinv
    rcases h1 with ⟨h1, h2⟩
    simp only [aReportsConnected, aIsConnected, aPrincipal, plugIsConnected]
    cases hc : s.connected <;> cases ha : s.available <;> simp_all
  · have h1 : (s.connected == s.principal.isSome) = true := by
      simpa [aInvariant] using hinv
    simp only [aReportsConnected, aIsConnected, aPrincipal, oisyIsConnected]
    cases hc : s.connected <;> simp_all
  · have h1 : (s.connected == s.principal.isSome) = true ∧
        (s.connected == (s.authClient && s.sessionAuthenticated)) = true := by
      simpa [aInvariant] using hinv
    rcases h1 with ⟨h1, h2⟩
    simp only [aReportsConnected, aIsConnected, aPrincipal, nfidIsConnected]
    cases hac : s.authClient <;> cases hsa : s.sessionAuthenticated <;> simp_all

/-- C7 (witness): the equivalence evaluated on the state a fresh Plug adapter
reaches through one successful connect. -/
theorem C7_witness :
    aReportsConnected (aConnect (.plug (plugInit true)) allOkConnectEnv).1 = true
    ↔ (aPrincipal (aConnect (.plug (plugInit true)) allOkConnectEnv).1).isSome = true :=
  C7_identity_iff_reports_connected _
    (AReach.connect _ (AReach.initPlug true))

/-- C8: whenever `connect(type)` succeeds, the only emitted event is the
`connected` event and the manager state it is emitted against - the state
every synchronously invoked listener observes - already has the
active-adapter reference set to that type. -/
theorem C8_connected_event_sees_active_type (st : WMState) (ty : String)
    (env : ConnectEnv) (p : String)
    (hok : (wmConnect st ty env).result = .ok p) :
    (wmConnect st ty env).events = [(.connected ty p, (wmConnect st ty env).state)]
    ∧ wmGetActiveWalletType (wmConnect st ty env).state = some ty := by
  unfold wmConnect at hok ⊢
  rcases hl : st.wallets.lookup ty with _ | w
  · simp [hl] at hok
  · rcases hav : aIsAvailable w with _ | _
    · simp [hl, hav] at hok
    · rcases hc : aConnect w env with ⟨w1, r⟩
      rcases r with e | p1
      · simp [hl, hav, hc] at hok
      · have hp : p1 = p := by simpa [hl, hav, hc] using hok
        subst hp
        simp [hl, hav, hc, wmGetActiveWalletType]

/-- C8 (witness): connecting the Plug adapter of a freshly constructed agent. -/
theorem C8_witness :
    (wmConnect (pybaraAgentWalletManager {} true) "plug" allOkConnectEnv).events =
      [(.connected "plug" "aaaaa-aa",
        (wmConnect (pybaraAgentWalletManager {} true) "plug" allOkConnectEnv).state)]
    ∧ wmGetActiveWalletType
        (wmConnect (pybaraAgentWalletManager {} true) "plug" allOkConnectEnv).state =
      some "plug" :=
  C8_connected_event_sees_active_type _ "plug" _ "aaaaa-aa" rfl

/-- C9: a token with no configured ledger id resolves to the ICP ledger
canister instead of failing, so a customer payment in an unsupported token is
handed to the orchestrator as a transfer against the ICP ledger rather than
being rejected. -/
theorem C9_unknown_token_falls_back_to_icp (token : String)
    (h : LEDGER_IDS token = none) (amount : Nat) (recipient : String)
    (b : Nat) (hb : amount ≤ b) :
    getLedgerCanisterId token = "ryjl3-tyaaa-aaaaa-aaaba-cai"
    ∧ sendCustomerPaymentToPybaraCore true amount recipient token (.ok b) =
        .orchestratorTransfer
          { «to» := recipient, amount := amount,
            ledgerCanisterId := "ryjl3-tyaaa-aaaaa-aaaba-cai", token := token } := by
  have hg : getLedgerCanisterId token = "ryjl3-tyaaa-aaaaa-aaaba-cai" := by
    unfold getLedgerCanisterId
    rw [h]
    rfl
  refine ⟨hg, ?_⟩
  simp [sendCustomerPaymentToPybaraCore, checkSufficientBalance, jsFalsyOptStr, hb, hg]

/-- C9 (witness): an unsupported token symbol with a sufficient balance. -/
theorem C9_witness :
    getLedgerCanisterId "DOGE" = "ryjl3-tyaaa-aaaaa-aaaba-cai"
    ∧ sendCustomerPaymentToPybaraCore true 5 "zvgwv-zyaaa-aaaac-qchaq-cai" "DOGE" (.ok 10) =
        .orchestratorTransfer
          { «to» := "zvgwv-zyaaa-aaaac-qchaq-cai", amount := 5,
            ledgerCanisterId := "ryjl3-tyaaa-aaaaa-aaaba-cai", token := "DOGE" } :=
  C9_unknown_token_falls_back_to_icp "DOGE" rfl 5 "zvgwv-zyaaa-aaaac-qchaq-cai" 10
    (by decide)

/-- C10: a successful `connect(B)` while A is active swaps the active
reference to B, leaves A's registered adapter state (cached connected flag
and identity included) byte-for-byte unchanged, and invokes only B's
`connect` - in particular A's `disconnect` is never called. -/
theorem C10_connect_other_preserves_previous_adapter (st : WMState)
    (tyA tyB : String) (wA : AState) (env : ConnectEnv) (p : String)
    (hne : tyA ≠ tyB)
    (hactive : st.activeWallet = some tyA)
    (hA : st.wallets.lookup tyA = some wA)
    (hok : (wmConnect st tyB env).result = .ok p) :
    (wmConnect st tyB env).state.activeWallet = some tyB
    ∧ (wmConnect st tyB env).state.wallets.lookup tyA = some wA
    ∧ (wmConnect st tyB env).calls = [(tyB, "connect")]
    ∧ (tyA, "disconnect") ∉ (wmConnect st tyB env).calls := by
  unfold wmConnect at hok ⊢
  rcases hl : st.wallets.lookup tyB with _ | w
  · simp [hl] at hok
  · rcases hav : aIsAvailable w with _ | _
    · simp [hl, hav] at hok
    · rcases hc : aConnect w env with ⟨w1, r⟩
      rcases r with e | p1
      · simp [hl, hav, hc] at hok
      · simp [hl, hav, hc, registrySet_lookup_ne _ _ _ _ hne, hA, hne]

/-- C10 (witness): an agent with Oisy active connects Plug; Oisy's connected
state survives untouched. -/
theorem C10_witness :
    (wmConnect wmOisyActivePlugRegisteredFixture "plug" allOkConnectEnv).state.activeWallet =
      some "plug"
    ∧ (wmConnect wmOisyActivePlugRegisteredFixture "plug" allOkConnectEnv).state.wallets.lookup
        "oisy" = some (.oisy oisyConnectedFixture)
    ∧ (wmConnect wmOisyActivePlugRegisteredFixture "plug" allOkConnectEnv).calls =
      [("plug", "connect")]
    ∧ ("oisy", "disconnect") ∉
        (wmConnect wmOisyActivePlugRegisteredFixture "plug" allOkConnectEnv).calls :=
  C10_connect_other_preserves_previous_adapter _ "oisy" "plug" _ _ "aaaaa-aa"
    (by decide) rfl rfl rfl

end Pybara
